import Mathlib

/-!
# Verification of the ARC-v2 reconciliation engine (`src/engine/matcher.py`, `src/engine/fuzzy.py`)

Shallow embedding of the matching/classification core:

* a pandas `DataFrame` is a `List` of row structures, in row order;
* `float` amounts are modelled as `ℚ`; pandas `.round()` (half-to-even) is
  `roundHalfEven`;
* calendar dates are modelled as `Option ℤ` (day number; `none` is `NaT`,
  the unparseable-date sentinel, which `astype(str)` renders as `"NaT"`);
* missing cells / columns that the code defaults are modelled as `Option`
  fields (`currency` absent ⇒ `"GBP"`, amount `NaN` ⇒ `0`, reference
  `NaN` ⇒ normalises to `""`), matching `prepare_dataframe`;
* `rapidfuzz.fuzz.ratio` is an external library; the embedding takes the
  scorer as an explicit parameter `score : String → String → ℚ`
  (0‥100 scale), compared against `FUZZY_THRESHOLD = 92` exactly as
  `mark_fuzzy` does.
-/

/-- pandas/NumPy `.round()` rounds half to even (banker's rounding). -/
def roundHalfEven (q : ℚ) : ℤ :=
  let f := q.floor
  let frac := q - (f : ℚ)
  if frac < 1/2 then f
  else if 1/2 < frac then f + 1
  else if f % 2 = 0 then f else f + 1

/-- `a == b [start of b]`: helper for substring containment. -/
def leadsWith : List Char → List Char → Bool
  | [], _ => true
  | _ :: _, [] => false
  | a :: as, b :: bs => a == b && leadsWith as bs

/-- `needle` occurs as a contiguous sublist of the second argument. -/
def hasSubList (needle : List Char) : List Char → Bool
  | [] => needle.isEmpty
  | b :: bs => leadsWith needle (b :: bs) || hasSubList needle bs

/-- Python's `needle in hay` substring test. -/
def strHasSub (needle hay : String) : Bool :=
  hasSubList needle.toList hay.toList

/-- `matcher.py` line 8: fixed FX conversion table to the base currency. -/
def FX_RATES : List (String × ℚ) := [("GBP", 1), ("USD", 79/100), ("EUR", 86/100)]

/-- `matcher.py` line 10. -/
def KNOWN_GATEWAYS : List String := ["stripe", "paypal", "square"]

/-- `matcher.py` line 11 (£5.00). -/
def SMALL_FEE_THRESHOLD_PENCE : ℤ := 500

/-- `matcher.py` line 12. -/
def DATE_TOLERANCE_DAYS : ℤ := 2

/-- `fuzzy.py` line 5. -/
def FUZZY_THRESHOLD : ℚ := 92

/-- One row of an input feed handed to `apply_matching`, post ingestion:
`date` already parsed (`none` = NaT), `amount` already numeric
(`none` = NaN, which `prepare_dataframe` fills with 0.0), `currency`
and `reference` possibly absent. -/
structure InRow where
  date : Option ℤ
  amount : Option ℚ
  currency : Option String
  reference : Option String
deriving Repr, DecidableEq, Inhabited

/-- One row of the unified master table; columns are added by the pipeline
stages, optional ones default to `none` (column absent / NaN). -/
structure Row where
  source : String
  date : Option ℤ
  amount : ℚ
  polarity : String
  currency : String
  amount_gbp : ℚ
  amount_cent : ℤ
  reference : Option String
  ref_norm : String
  match_key : Option String := none
  amount_pence : Option ℤ := none
  fuzzy_group : Option ℕ := none
  final_status : String := ""
  fuzzy_status : Option String := none
  match_type : Option String := none
  resolution_status : Option String := none
  variance_amount : Option ℚ := none
  reason_code : Option String := none
  match_reason : Option String := none
deriving Repr, DecidableEq, Inhabited

/-- `matcher.py` lines 14–18: lower-case and keep only alphanumerics;
null references normalise to `""`. -/
def normalise_reference : Option String → String
  | none => ""
  | some x => String.mk (x.toLower.toList.filter fun ch => ch.isAlphanum)

/-- The signed amounts of a table, with NaN filled as 0.0
(`matcher.py` lines 28–31). -/
def tableAmounts (df : List (String × InRow)) : List ℚ :=
  df.map fun p => p.2.amount.getD 0

/-- `df["amount"].mean()` over the whole table (pandas mean of an empty
series is NaN, for which `NaN < 0` is false; division by zero in `ℚ`
yields 0, giving the same branch). -/
def meanAmount (df : List (String × InRow)) : ℚ :=
  (tableAmounts df).sum / ((tableAmounts df).length : ℚ)

/-- `matcher.py` lines 20–54, applied to the already source-tagged table:
fills amounts, detects debit/credit polarity from the whole table's mean,
converts currency via `FX_RATES` (unknown codes at rate 1.0), computes the
integer minor-unit amount and the normalised reference. -/
def prepare_dataframe (df : List (String × InRow)) : List Row :=
  let debit := meanAmount df < 0
  df.map fun p =>
    let amt0 := p.2.amount.getD 0
    let amount := if debit then |amt0| else amt0
    let currency := p.2.currency.getD "GBP"
    let amount_gbp := amount * ((FX_RATES.lookup currency).getD 1)
    { source := p.1
      date := p.2.date
      amount := amount
      polarity := if debit then "debit" else "credit"
      currency := currency
      amount_gbp := amount_gbp
      amount_cent := roundHalfEven (amount_gbp * 100)
      reference := p.2.reference
      ref_norm := normalise_reference p.2.reference }

/-- `df["date"].astype(str)` on a parsed date column: dates print as their
value, NaT prints as `"NaT"`. -/
def dateKeyStr : Option ℤ → String
  | some d => toString d
  | none => "NaT"

/-- `matcher.py` lines 56–62. -/
def make_match_key (df : List Row) : List Row :=
  df.map fun r =>
    let k := toString r.amount_cent ++ "_" ++ r.ref_norm ++ "_" ++ dateKeyStr r.date
    { r with match_key := some k }

/-- The `source` values of the rows sharing a given `match_key`
(`matcher.py` line 142's per-key source collection). -/
def groupSources (master : List Row) (k : String) : List String :=
  (master.filter fun r => r.match_key == some k).map fun r => r.source

/-- `matcher.py` lines 143–145: the per-key source set equals
`{"bank","ledger","gateway"}` (set equality = mutual containment). -/
def isReconciled (master : List Row) (k : String) : Bool :=
  (["bank", "ledger", "gateway"].all fun s => (groupSources master k).contains s) &&
  ((groupSources master k).all fun s => ["bank", "ledger", "gateway"].contains s)

/-- `matcher.py` lines 147–148: default `"Unmatched"`, then `"Matched"`
for rows whose key is in the reconciled-key set. -/
def markReconciled (master : List Row) : List Row :=
  master.map fun r =>
    let hit := match r.match_key with
      | some k => isReconciled master k
      | none => false
    { r with final_status := if hit then "Matched" else "Unmatched" }

/-- The per-row update of `fuzzy.py`'s `mark_fuzzy` once the row's fuzzy
group id `g` is known: the backwards-compatibility copy
`amount_pence := amount_cent` (the pipeline's table has `amount_cent` and
no `amount_pence`), the group id, and the synthetic key — assigned only
when `match_key` is null (`pd.isna`), else kept. -/
def fuzzRow (g : ℕ) (r : Row) : Row :=
  { r with
    amount_pence := some r.amount_cent
    fuzzy_group := some g
    match_key := some (r.match_key.getD (toString g ++ "_" ++ toString r.amount_cent)) }


/-- Inner loop of `fuzzy.py` lines 25–32: scan indices after `i`, folding
still-unassigned rows whose similarity to row `i` meets the threshold into
cluster `i`. -/
def fuzzyAssignInner (score : String → String → ℚ) (refs : List String) (i : ℕ)
    (asn : Array (Option ℕ)) : Array (Option ℕ) :=
  (List.range refs.length).foldl
    (fun a j =>
      if j ≤ i then a
      else if (a.getD j none).isSome then a
      else if FUZZY_THRESHOLD ≤ score (refs.getD i "") (refs.getD j "") then
        a.set! j (some i)
      else a)
    asn

/-- Outer loop of `fuzzy.py` lines 19–32: each still-unassigned row opens
a cluster rooted at itself. -/
def markFuzzyAssign (score : String → String → ℚ) (refs : List String) :
    Array (Option ℕ) :=
  (List.range refs.length).foldl
    (fun a i =>
      if (a.getD i none).isSome then a
      else fuzzyAssignInner score refs i (a.set! i (some i)))
    (Array.mkArray refs.length none)

/-- Applies the computed group ids row by row (row `i` gets `groups[i]`;
the outer loop always assigns a row to itself, so the `getD i` defaults
are never exercised). -/
def applyFuzzyGroups (groups : Array (Option ℕ)) : ℕ → List Row → List Row
  | _, [] => []
  | i, r :: rs => fuzzRow ((groups.getD i none).getD i) r :: applyFuzzyGroups groups (i + 1) rs

/-- `fuzzy.py` lines 8–42, with the similarity scorer
(`rapidfuzz.fuzz.ratio`) passed explicitly. -/
def mark_fuzzy (score : String → String → ℚ) (df : List Row) : List Row :=
  applyFuzzyGroups (markFuzzyAssign score (df.map fun r => r.ref_norm)) 0 df

/-- `matcher.py` line 151: `fuzzy_status = "NotFuzzy"` on matched rows
(the column does not exist before this, so other rows hold NaN). -/
def setNotFuzzy (master : List Row) : List Row :=
  master.map fun r =>
    if r.final_status == "Matched" then { r with fuzzy_status := some "NotFuzzy" } else r

/-- `matcher.py` lines 153–158. -/
def remapStatus (master : List Row) : List Row :=
  master.map fun r =>
    let st := if r.final_status == "Matched" then "Matched"
      else if r.fuzzy_status == some "FuzzyMatched" then "FuzzyMatched"
      else "Unmatched"
    { r with final_status := st }

/-- `matcher.py` lines 81–84: `same_amount`. -/
def sameAmountRows (master : List Row) (row : Row) : List Row :=
  master.filter fun r => r.amount_cent == row.amount_cent && r.source != row.source

/-- `matcher.py` lines 88–90: `date_diffs` (pairs with a null date on
either side are dropped, as by the `if d and row["date"]`/`dropna`). -/
def dateDiffs (master : List Row) (row : Row) : List ℤ :=
  (sameAmountRows master row).filterMap fun r =>
    match r.date, row.date with
    | some d, some d0 => some |d - d0|
    | _, _ => none

/-- `matcher.py` lines 64–110. -/
def classify_match_reason (row : Row) (master : List Row) : Row :=
  let row := { row with match_type := none, resolution_status := none,
                        variance_amount := none, reason_code := none }
  if row.final_status == "Matched" then
    { row with match_type := some "exact_reference", resolution_status := some "cleared" }
  else if row.final_status == "FuzzyMatched" then
    { row with match_type := some "fuzzy_reference", resolution_status := some "cleared" }
  else
    if sameAmountRows master row ≠ [] ∧
       ∃ x ∈ dateDiffs master row, DATE_TOLERANCE_DAYS < x then
      { row with resolution_status := some "exception_timing",
                 reason_code := some "timing_difference" }
    else if row.amount_cent ≤ SMALL_FEE_THRESHOLD_PENCE ∧
            ∃ gw ∈ KNOWN_GATEWAYS, strHasSub gw row.ref_norm then
      { row with resolution_status := some "cleared_with_difference",
                 reason_code := some "likely_processing_fee",
                 variance_amount := some ((row.amount_cent : ℚ) / 100) }
    else
      { row with resolution_status := some "exception_unknown",
                 reason_code := some "unknown" }

/-- Renders a rational with two decimals, as Python's `f"{v:.2f}"` does on
the (exactly representable) variance values the code produces. -/
def fmt2 (q : ℚ) : String :=
  let c := roundHalfEven (q * 100)
  let a := c.natAbs
  (if c < 0 then "-" else "") ++ toString (a / 100) ++ "." ++
    (if a % 100 < 10 then "0" else "") ++ toString (a % 100)

/-- `matcher.py` lines 112–131. -/
def generate_match_reason (row : Row) : String :=
  if row.resolution_status == some "cleared" then
    if row.match_type == some "exact_reference" then
      "Exact reference match - cleared automatically"
    else if row.match_type == some "fuzzy_reference" then
      "Similar reference detected - cleared automatically"
    else "Matched by amount and date - cleared automatically"
  else if row.resolution_status == some "cleared_with_difference" then
    if row.reason_code == some "likely_processing_fee" then
      "Likely processing fee - " ++ fmt2 ((row.variance_amount).getD 0) ++
        " with no corresponding bank entry"
    else "Matched across 2 sources; " ++ fmt2 ((row.variance_amount).getD 0) ++
        " variance detected (gateway fee)"
  else if row.resolution_status == some "exception_timing" then
    "Matching amount found outside date tolerance - timing difference"
  else if row.resolution_status == some "exception_unknown" then
    "Unmatched transaction - no reliable match detected"
  else "Manual review required"

/-- `matcher.py` lines 134–138: tag each feed with its source and
concatenate. -/
def taggedInput (bank_df ledger_df gateway_df : List InRow) : List (String × InRow) :=
  bank_df.map (fun r => ("bank", r)) ++ ledger_df.map (fun r => ("ledger", r)) ++
    gateway_df.map (fun r => ("gateway", r))

/-- `matcher.py` lines 133–169: the reconciliation entry point.  Returns
`(master, matched, fuzzy, unmatched)`. -/
def apply_matching (score : String → String → ℚ)
    (bank_df ledger_df gateway_df : List InRow) :
    List Row × List Row × List Row × List Row :=
  let master := taggedInput bank_df ledger_df gateway_df
  let master := make_match_key (prepare_dataframe master)
  let master := markReconciled master
  let master := mark_fuzzy score master
  let master := setNotFuzzy master
  let master := remapStatus master
  let master := master.map fun r => classify_match_reason r master
  let master := master.map fun r => { r with match_reason := some (generate_match_reason r) }
  (master,
   master.filter fun r => r.final_status == "Matched",
   master.filter fun r => r.final_status == "FuzzyMatched",
   master.filter fun r => r.final_status == "Unmatched")

/-! ## Named pipeline stages

The successive reassignments of `master` inside `apply_matching`,
as standalone definitions so that lemmas can speak about each stage. -/

/-- `master` after `prepare_dataframe` and `make_match_key`. -/
def masterKeyed (b l g : List InRow) : List Row :=
  make_match_key (prepare_dataframe (taggedInput b l g))

/-- `master` after the reconciled-key status assignment. -/
def masterStatused (b l g : List InRow) : List Row :=
  markReconciled (masterKeyed b l g)

/-- `master` after `mark_fuzzy`. -/
def masterFuzzy (score : String → String → ℚ) (b l g : List InRow) : List Row :=
  setNotFuzzy (mark_fuzzy score (masterStatused b l g))

/-- `master` after the final-status remapping of lines 153–158. -/
def masterPre (score : String → String → ℚ) (b l g : List InRow) : List Row :=
  remapStatus (masterFuzzy score b l g)

/-- The full result table (first component of `apply_matching`). -/
def masterAll (score : String → String → ℚ) (b l g : List InRow) : List Row :=
  ((masterPre score b l g).map fun r =>
      classify_match_reason r (masterPre score b l g)).map
    fun r => { r with match_reason := some (generate_match_reason r) }

/-- The fields of a row fixed by `prepare_dataframe`/`make_match_key` and
untouched by every later stage. -/
def bigProj (r : Row) :
    String × Option ℤ × ℚ × String × String × ℚ × ℤ × String × Option String :=
  (r.source, r.date, r.amount, r.polarity, r.currency, r.amount_gbp,
   r.amount_cent, r.ref_norm, r.match_key)

/-- Key, source and matched-flag of a row: preserved from the
reconciled-key stage to the final table. -/
def statKey (r : Row) : Option String × String × Bool :=
  (r.match_key, r.source, r.final_status == "Matched")

/-- Source `s` has a transaction with grouping key `k` in table `lst`. -/
def sourcesPresent (lst : List Row) (k : Option String) (s : String) : Prop :=
  ∃ r ∈ lst, r.match_key = k ∧ r.source = s

/-- Both dates are present and differ by more than the tolerance. -/
def dateFar (a b : Option ℤ) : Bool :=
  match a, b with
  | some d, some d0 => decide (DATE_TOLERANCE_DAYS < |d - d0|)
  | _, _ => false

/-- Some other-source transaction in `lst` has the identical minor-unit
amount and a date more than the tolerance away from `row`'s. -/
def timingWitness (lst : List Row) (row : Row) : Prop :=
  ∃ r ∈ lst, r.amount_cent = row.amount_cent ∧ r.source ≠ row.source ∧
    dateFar r.date row.date = true

instance (lst : List Row) (k : Option String) (s : String) :
    Decidable (sourcesPresent lst k s) := by
  unfold sourcesPresent
  infer_instance

instance (lst : List Row) (row : Row) : Decidable (timingWitness lst row) := by
  unfold timingWitness
  infer_instance

/-- Similarity scorer used for the concrete runs: 100 on equal strings,
0 otherwise — it agrees with `rapidfuzz.fuzz.ratio` on every string pair
the concrete inputs below contain (identical strings score 100;
character-disjoint strings score 0). -/
def scoreEq (a b : String) : ℚ := if a == b then 100 else 0

/-! ## Concrete input tables used by counterexamples and witnesses -/

/-- Bank feed: one row, amount 50.00, reference "ABC" (spec §8, two-source
scenario). -/
def exTwoBank : List InRow := [⟨some 0, some 50, none, some "ABC"⟩]

/-- Ledger feed: the identical row. -/
def exTwoLedger : List InRow := [⟨some 0, some 50, none, some "ABC"⟩]

/-- One identical row, used as all three feeds (spec §8, three-source
scenario). -/
def exThreeFeed : List InRow := [⟨some 4, some 100, none, some "INV1001"⟩]

/-- Bank feed: a lone 4.99 "STRIPE FEE" row (spec §8, gateway-fee
scenario). -/
def exFeeBank : List InRow := [⟨some 0, some (499/100), none, some "STRIPE FEE"⟩]

/-- Bank feed for the timing scenario. -/
def exTimBank : List InRow := [⟨some 0, some 10, none, some "abc"⟩]

/-- Ledger feed for the timing scenario: identical to the bank row. -/
def exTimLedger : List InRow := [⟨some 0, some 10, none, some "abc"⟩]

/-- Gateway feed for the timing scenario: same amount, reference disjoint
from "abc", dated 10 days later. -/
def exTimGateway : List InRow := [⟨some 10, some 10, none, some "zzz"⟩]

/-- Bank feed for the fuzzy scenario. -/
def exFzBank : List InRow := [⟨some 0, some 10, none, some "ABC"⟩]

/-- Ledger feed for the fuzzy scenario: identical reference, different
date. -/
def exFzLedger : List InRow := [⟨some 5, some 10, none, some "ABC"⟩]

/-- Bank feed for the polarity scenario: all-negative amounts. -/
def exPolBank : List InRow := [⟨some 0, some (-10), none, some "aaa"⟩]

/-- Ledger feed for the polarity scenario: positive amounts. -/
def exPolLedger : List InRow := [⟨some 0, some 100, none, some "bbb"⟩]

/-- Gateway feed for the polarity scenario: positive amounts. -/
def exPolGateway : List InRow := [⟨some 0, some 100, none, some "ccc"⟩]

/-- Bank feed with mixed signs and a nonnegative mean. -/
def exMixBank : List InRow :=
  [⟨some 0, some (-1), none, some "aaa"⟩, ⟨some 0, some 100, none, some "bbb"⟩]

/-- Bank feed whose mean amount is negative. -/
def exNegBank : List InRow := [⟨some 0, some (-3), none, some "xyz"⟩]

/-- A standalone master row with an already-set `match_key`, for the
`mark_fuzzy` witness. -/
def exKeyedRow : Row :=
  { source := "bank", date := some 0, amount := 1, polarity := "credit",
    currency := "GBP", amount_gbp := 1, amount_cent := 100,
    reference := some "A", ref_norm := "a", match_key := some "100_a_0" }

/-! ## Generic list lemmas -/

lemma apply_matching_eq (score : String → String → ℚ) (b l g : List InRow) :
    apply_matching score b l g =
      (masterAll score b l g,
       (masterAll score b l g).filter fun r => r.final_status == "Matched",
       (masterAll score b l g).filter fun r => r.final_status == "FuzzyMatched",
       (masterAll score b l g).filter fun r => r.final_status == "Unmatched") := rfl

lemma map_proj_of_map {α : Type} (p : Row → α) (f : Row → Row) (m : List Row)
    (hp : ∀ r ∈ m, p (f r) = p r) : (m.map f).map p = m.map p := by
  rw [List.map_map]
  exact List.map_congr_left hp

lemma headI_mem (l : List Row) (h : l ≠ []) : l.headI ∈ l := by
  cases l with
  | nil => exact absurd rfl h
  | cons a t => exact List.mem_cons_self a t

lemma exists_of_map_eq {α : Type} {p : Row → α} {m m2 : List Row}
    (h : m.map p = m2.map p) {r : Row} (hr : r ∈ m) : ∃ x ∈ m2, p x = p r := by
  have hmem : p r ∈ m2.map p := by
    rw [← h]
    exact List.mem_map_of_mem p hr
  obtain ⟨x, hx, hpx⟩ := List.mem_map.mp hmem
  exact ⟨x, hx, hpx⟩

/-! ## Stage preservation lemmas -/

lemma applyFuzzyGroups_map {α : Type} (p : Row → α) (gs : Array (Option ℕ)) :
    ∀ (lst : List Row) (i : ℕ), (∀ gid r, r ∈ lst → p (fuzzRow gid r) = p r) →
      (applyFuzzyGroups gs i lst).map p = lst.map p := by
  intro lst
  induction lst with
  | nil => intro i _; rfl
  | cons a t ih =>
    intro i h
    simp only [applyFuzzyGroups, List.map_cons]
    rw [ih (i + 1) fun gid r hr => h gid r (List.mem_cons_of_mem a hr)]
    rw [h _ a (List.mem_cons_self a t)]

lemma applyFuzzyGroups_length (gs : Array (Option ℕ)) :
    ∀ (lst : List Row) (i : ℕ), (applyFuzzyGroups gs i lst).length = lst.length := by
  intro lst
  induction lst with
  | nil => intro i; rfl
  | cons a t ih => intro i; simp only [applyFuzzyGroups, List.length_cons, ih]

lemma bigProj_fuzzRow (gid : ℕ) (r : Row) (h : r.match_key.isSome = true) :
    bigProj (fuzzRow gid r) = bigProj r := by
  obtain ⟨k, hk⟩ := Option.isSome_iff_exists.mp h
  simp [bigProj, fuzzRow, hk]

lemma statKey_fuzzRow (gid : ℕ) (r : Row) (h : r.match_key.isSome = true) :
    statKey (fuzzRow gid r) = statKey r := by
  obtain ⟨k, hk⟩ := Option.isSome_iff_exists.mp h
  simp [statKey, fuzzRow, hk]

lemma masterKeyed_key_isSome (b l g : List InRow) :
    ∀ r ∈ masterKeyed b l g, r.match_key.isSome = true := by
  intro r hr
  obtain ⟨x, _, rfl⟩ := List.mem_map.mp hr
  rfl

lemma masterStatused_key_isSome (b l g : List InRow) :
    ∀ r ∈ masterStatused b l g, r.match_key.isSome = true := by
  intro r hr
  obtain ⟨x, hx, rfl⟩ := List.mem_map.mp hr
  exact masterKeyed_key_isSome b l g x hx

lemma bigProj_classify (r : Row) (m : List Row) :
    bigProj (classify_match_reason r m) = bigProj r := by
  unfold classify_match_reason
  dsimp only
  repeat' split
  all_goals rfl

lemma statKey_classify (r : Row) (m : List Row) :
    statKey (classify_match_reason r m) = statKey r := by
  unfold classify_match_reason
  dsimp only
  repeat' split
  all_goals rfl

lemma bigProj_setNotFuzzy_row (r : Row) :
    bigProj (if r.final_status == "Matched" then { r with fuzzy_status := some "NotFuzzy" } else r) =
      bigProj r := by
  split
  all_goals rfl

lemma statKey_setNotFuzzy_row (r : Row) :
    statKey (if r.final_status == "Matched" then { r with fuzzy_status := some "NotFuzzy" } else r) =
      statKey r := by
  split
  all_goals rfl

lemma statKey_remap_row (r : Row) :
    statKey { r with final_status :=
        if r.final_status == "Matched" then "Matched"
        else if r.fuzzy_status == some "FuzzyMatched" then "FuzzyMatched"
        else "Unmatched" } = statKey r := by
  unfold statKey
  by_cases h : r.final_status == "Matched"
  · simp [h]
  · by_cases h2 : r.fuzzy_status == some "FuzzyMatched"
    · simp [h, h2]
    · simp [h, h2]

lemma map_bigProj_reason (m : List Row) :
    (m.map fun r => { r with match_reason := some (generate_match_reason r) }).map bigProj =
      m.map bigProj :=
  map_proj_of_map _ _ _ fun _ _ => rfl

lemma map_bigProj_classify (m m2 : List Row) :
    (m.map fun r => classify_match_reason r m2).map bigProj = m.map bigProj :=
  map_proj_of_map _ _ _ fun r _ => bigProj_classify r m2

lemma map_bigProj_remap (m : List Row) :
    (remapStatus m).map bigProj = m.map bigProj :=
  map_proj_of_map _ _ _ fun _ _ => rfl

lemma map_bigProj_setNotFuzzy (m : List Row) :
    (setNotFuzzy m).map bigProj = m.map bigProj :=
  map_proj_of_map _ _ _ fun r _ => bigProj_setNotFuzzy_row r

lemma map_bigProj_markReconciled (m : List Row) :
    (markReconciled m).map bigProj = m.map bigProj :=
  map_proj_of_map _ _ _ fun _ _ => rfl

lemma map_bigProj_markFuzzy (score : String → String → ℚ) (m : List Row)
    (h : ∀ r ∈ m, r.match_key.isSome = true) :
    (mark_fuzzy score m).map bigProj = m.map bigProj :=
  applyFuzzyGroups_map bigProj _ m 0 fun gid r hr => bigProj_fuzzRow gid r (h r hr)

lemma masterAll_map_bigProj (score : String → String → ℚ) (b l g : List InRow) :
    (masterAll score b l g).map bigProj = (masterKeyed b l g).map bigProj := by
  unfold masterAll
  rw [map_bigProj_reason, map_bigProj_classify]
  unfold masterPre
  rw [map_bigProj_remap]
  unfold masterFuzzy
  rw [map_bigProj_setNotFuzzy,
      map_bigProj_markFuzzy score _ (masterStatused_key_isSome b l g)]
  unfold masterStatused
  rw [map_bigProj_markReconciled]

lemma map_statKey_reason (m : List Row) :
    (m.map fun r => { r with match_reason := some (generate_match_reason r) }).map statKey =
      m.map statKey :=
  map_proj_of_map _ _ _ fun _ _ => rfl

lemma map_statKey_classify (m m2 : List Row) :
    (m.map fun r => classify_match_reason r m2).map statKey = m.map statKey :=
  map_proj_of_map _ _ _ fun r _ => statKey_classify r m2

lemma map_statKey_remap (m : List Row) :
    (remapStatus m).map statKey = m.map statKey :=
  map_proj_of_map _ _ _ fun r _ => statKey_remap_row r

lemma map_statKey_setNotFuzzy (m : List Row) :
    (setNotFuzzy m).map statKey = m.map statKey :=
  map_proj_of_map _ _ _ fun r _ => statKey_setNotFuzzy_row r

lemma map_statKey_markFuzzy (score : String → String → ℚ) (m : List Row)
    (h : ∀ r ∈ m, r.match_key.isSome = true) :
    (mark_fuzzy score m).map statKey = m.map statKey :=
  applyFuzzyGroups_map statKey _ m 0 fun gid r hr => statKey_fuzzRow gid r (h r hr)

lemma masterAll_map_statKey (score : String → String → ℚ) (b l g : List InRow) :
    (masterAll score b l g).map statKey = (masterStatused b l g).map statKey := by
  unfold masterAll
  rw [map_statKey_reason, map_statKey_classify]
  unfold masterPre
  rw [map_statKey_remap]
  unfold masterFuzzy
  rw [map_statKey_setNotFuzzy,
      map_statKey_markFuzzy score _ (masterStatused_key_isSome b l g)]

lemma bigProj_fields {a b : Row} (h : bigProj a = bigProj b) :
    a.source = b.source ∧ a.date = b.date ∧ a.amount = b.amount ∧ a.polarity = b.polarity ∧
    a.currency = b.currency ∧ a.amount_gbp = b.amount_gbp ∧ a.amount_cent = b.amount_cent ∧
    a.ref_norm = b.ref_norm ∧ a.match_key = b.match_key := by
  simpa [bigProj, Prod.mk.injEq] using h

lemma statKey_fields {a b : Row} (h : statKey a = statKey b) :
    a.match_key = b.match_key ∧ a.source = b.source ∧
    (a.final_status == "Matched") = (b.final_status == "Matched") := by
  simpa [statKey, Prod.mk.injEq] using h

/-! ## Status characterization -/

lemma masterStatused_matched_char (b l g : List InRow) :
    ∀ r ∈ masterStatused b l g,
      (r.final_status == "Matched") =
        (match r.match_key with
         | some k => isReconciled (masterKeyed b l g) k
         | none => false) := by
  intro r hr
  unfold masterStatused markReconciled at hr
  obtain ⟨x, _, rfl⟩ := List.mem_map.mp hr
  dsimp only
  cases hk : x.match_key with
  | none => simp [hk]
  | some k => cases hrec : isReconciled (masterKeyed b l g) k <;> simp [hk, hrec]

lemma groupSources_congr (k : String) :
    ∀ (m m2 : List Row), m.map bigProj = m2.map bigProj →
      groupSources m k = groupSources m2 k := by
  intro m
  induction m with
  | nil =>
    intro m2 h
    cases m2 with
    | nil => rfl
    | cons x t => simp at h
  | cons a t ih =>
    intro m2 h
    cases m2 with
    | nil => simp at h
    | cons x t2 =>
      simp only [List.map_cons, List.cons.injEq] at h
      obtain ⟨h1, h2⟩ := h
      obtain ⟨hsrc, -, -, -, -, -, -, -, hkey⟩ := bigProj_fields h1
      unfold groupSources
      simp only [List.filter_cons]
      rw [hkey]
      have ht := ih t2 h2
      unfold groupSources at ht
      cases hc : (x.match_key == some k) with
      | false => simpa [hc] using ht
      | true =>
        simp only [hc, if_true, List.map_cons]
        rw [hsrc, ht]

lemma isReconciled_congr {m m2 : List Row} (h : m.map bigProj = m2.map bigProj) (k : String) :
    isReconciled m k = isReconciled m2 k := by
  unfold isReconciled
  rw [groupSources_congr k m m2 h]

lemma taggedInput_src (b l g : List InRow) :
    ∀ p ∈ taggedInput b l g, p.1 = "bank" ∨ p.1 = "ledger" ∨ p.1 = "gateway" := by
  intro p hp
  unfold taggedInput at hp
  rcases List.mem_append.mp hp with hp | hp
  · rcases List.mem_append.mp hp with hp | hp
    · obtain ⟨x, -, rfl⟩ := List.mem_map.mp hp
      exact Or.inl rfl
    · obtain ⟨x, -, rfl⟩ := List.mem_map.mp hp
      exact Or.inr (Or.inl rfl)
  · obtain ⟨x, -, rfl⟩ := List.mem_map.mp hp
    exact Or.inr (Or.inr rfl)

lemma masterKeyed_source_mem (b l g : List InRow) :
    ∀ r ∈ masterKeyed b l g,
      r.source = "bank" ∨ r.source = "ledger" ∨ r.source = "gateway" := by
  intro r hr
  unfold masterKeyed make_match_key at hr
  obtain ⟨x, hx, rfl⟩ := List.mem_map.mp hr
  unfold prepare_dataframe at hx
  obtain ⟨p, hp, rfl⟩ := List.mem_map.mp hx
  exact taggedInput_src b l g p hp

lemma masterAll_source_mem (score : String → String → ℚ) (b l g : List InRow) :
    ∀ r ∈ masterAll score b l g,
      r.source = "bank" ∨ r.source = "ledger" ∨ r.source = "gateway" := by
  intro r hr
  obtain ⟨x, hx, hbp⟩ := exists_of_map_eq (masterAll_map_bigProj score b l g) hr
  obtain ⟨hsrc, -⟩ := bigProj_fields hbp
  rw [← hsrc]
  exact masterKeyed_source_mem b l g x hx

lemma masterAll_key_isSome (score : String → String → ℚ) (b l g : List InRow) :
    ∀ r ∈ masterAll score b l g, r.match_key.isSome = true := by
  intro r hr
  obtain ⟨x, hx, hbp⟩ := exists_of_map_eq (masterAll_map_bigProj score b l g) hr
  obtain ⟨-, -, -, -, -, -, -, -, hkey⟩ := bigProj_fields hbp
  rw [← hkey]
  exact masterKeyed_key_isSome b l g x hx

lemma mem_groupSources (m : List Row) (k : String) (s : String) :
    s ∈ groupSources m k ↔ sourcesPresent m (some k) s := by
  unfold groupSources sourcesPresent
  simp only [List.mem_map, List.mem_filter, beq_iff_eq]
  constructor
  · rintro ⟨r, ⟨hm, hk⟩, hs⟩
    exact ⟨r, hm, hk, hs⟩
  · rintro ⟨r, hm, hk, hs⟩
    exact ⟨r, ⟨hm, hk⟩, hs⟩

lemma str_contains_iff (lst : List String) (s : String) : lst.contains s = true ↔ s ∈ lst := by
  simp [List.contains_iff_exists_mem_beq, beq_iff_eq]

lemma isReconciled_true_iff (m : List Row) (k : String)
    (hsub : ∀ r ∈ m, r.source = "bank" ∨ r.source = "ledger" ∨ r.source = "gateway") :
    isReconciled m k = true ↔
      (sourcesPresent m (some k) "bank" ∧ sourcesPresent m (some k) "ledger" ∧
       sourcesPresent m (some k) "gateway") := by
  unfold isReconciled
  simp only [Bool.and_eq_true, List.all_eq_true]
  constructor
  · rintro ⟨h1, -⟩
    refine ⟨?_, ?_, ?_⟩ <;>
      [exact (mem_groupSources m k "bank").mp ((str_contains_iff _ _).mp (h1 "bank" (by simp)));
       exact (mem_groupSources m k "ledger").mp ((str_contains_iff _ _).mp (h1 "ledger" (by simp)));
       exact (mem_groupSources m k "gateway").mp ((str_contains_iff _ _).mp (h1 "gateway" (by simp)))]
  · rintro ⟨hb, hl, hg⟩
    constructor
    · intro s hs
      apply (str_contains_iff _ _).mpr
      apply (mem_groupSources m k s).mpr
      simp only [List.mem_cons, List.not_mem_nil, or_false] at hs
      rcases hs with rfl | rfl | rfl
      · exact hb
      · exact hl
      · exact hg
    · intro s hs
      obtain ⟨r, hm, -, hsrc⟩ := (mem_groupSources m k s).mp hs
      apply (str_contains_iff _ _).mpr
      rw [← hsrc]
      rcases hsub r hm with h | h | h <;> simp [h]

lemma matched_iff_sources (score : String → String → ℚ) (b l g : List InRow) {r : Row}
    (hr : r ∈ masterAll score b l g) :
    r.final_status = "Matched" ↔
      (sourcesPresent (masterAll score b l g) r.match_key "bank" ∧
       sourcesPresent (masterAll score b l g) r.match_key "ledger" ∧
       sourcesPresent (masterAll score b l g) r.match_key "gateway") := by
  obtain ⟨x, hx, hsk⟩ := exists_of_map_eq (masterAll_map_statKey score b l g) hr
  obtain ⟨hkey, -, hstat⟩ := statKey_fields hsk
  obtain ⟨k, hk⟩ := Option.isSome_iff_exists.mp (masterAll_key_isSome score b l g r hr)
  have hchar := masterStatused_matched_char b l g x hx
  rw [hkey, hk] at hchar
  have hrec : (r.final_status == "Matched") = isReconciled (masterAll score b l g) k := by
    rw [← hstat, hchar]
    exact isReconciled_congr (masterAll_map_bigProj score b l g).symm k
  have hiff := isReconciled_true_iff (masterAll score b l g) k
    (masterAll_source_mem score b l g)
  rw [hk]
  constructor
  · intro h
    apply hiff.mp
    rw [← hrec, h]
    rfl
  · intro h
    have := hiff.mpr h
    rw [← hrec] at this
    exact eq_of_beq this

/-! ## The FuzzyMatched status never occurs -/

lemma masterKeyed_fuzzy_none (b l g : List InRow) :
    ∀ r ∈ masterKeyed b l g, r.fuzzy_status = none := by
  intro r hr
  unfold masterKeyed make_match_key at hr
  obtain ⟨x, hx, rfl⟩ := List.mem_map.mp hr
  unfold prepare_dataframe at hx
  obtain ⟨p, -, rfl⟩ := List.mem_map.mp hx
  rfl

lemma markFuzzy_statused_map_fuzz (score : String → String → ℚ) (b l g : List InRow) :
    (mark_fuzzy score (masterStatused b l g)).map (fun r => r.fuzzy_status) =
      (masterKeyed b l g).map (fun r => r.fuzzy_status) := by
  unfold mark_fuzzy
  rw [applyFuzzyGroups_map (fun r => r.fuzzy_status) _ _ 0 (fun _ _ _ => rfl)]
  unfold masterStatused markReconciled
  exact map_proj_of_map _ _ _ fun _ _ => rfl

lemma masterFuzzy_fuzzy_status (score : String → String → ℚ) (b l g : List InRow) :
    ∀ r ∈ masterFuzzy score b l g,
      r.fuzzy_status = none ∨ r.fuzzy_status = some "NotFuzzy" := by
  intro r hr
  unfold masterFuzzy setNotFuzzy at hr
  obtain ⟨x, hx, rfl⟩ := List.mem_map.mp hr
  have hx2 : x.fuzzy_status = none := by
    obtain ⟨y, hy, hp⟩ := exists_of_map_eq (markFuzzy_statused_map_fuzz score b l g) hx
    rw [← hp]
    exact masterKeyed_fuzzy_none b l g y hy
  split
  · exact Or.inr rfl
  · exact Or.inl hx2

lemma masterPre_status (score : String → String → ℚ) (b l g : List InRow) :
    ∀ r ∈ masterPre score b l g,
      r.final_status = "Matched" ∨ r.final_status = "Unmatched" := by
  intro r hr
  unfold masterPre remapStatus at hr
  obtain ⟨x, hx, rfl⟩ := List.mem_map.mp hr
  dsimp only
  by_cases h1 : x.final_status == "Matched"
  · simp [h1]
  · rcases masterFuzzy_fuzzy_status score b l g x hx with hf | hf <;>
      simp [h1, hf]

lemma final_status_classify (r : Row) (m : List Row) :
    (classify_match_reason r m).final_status = r.final_status := by
  unfold classify_match_reason
  dsimp only
  repeat' split
  all_goals rfl

lemma masterAll_row_form (score : String → String → ℚ) (b l g : List InRow) :
    ∀ r ∈ masterAll score b l g, ∃ x ∈ masterPre score b l g,
      r = { classify_match_reason x (masterPre score b l g) with
            match_reason :=
              some (generate_match_reason (classify_match_reason x (masterPre score b l g))) } := by
  intro r hr
  unfold masterAll at hr
  obtain ⟨y, hy, rfl⟩ := List.mem_map.mp hr
  obtain ⟨x, hx, rfl⟩ := List.mem_map.mp hy
  exact ⟨x, hx, rfl⟩

lemma masterAll_status (score : String → String → ℚ) (b l g : List InRow) :
    ∀ r ∈ masterAll score b l g,
      r.final_status = "Matched" ∨ r.final_status = "Unmatched" := by
  intro r hr
  obtain ⟨x, hx, rfl⟩ := masterAll_row_form score b l g r hr
  have : ({ classify_match_reason x (masterPre score b l g) with
            match_reason :=
              some (generate_match_reason (classify_match_reason x (masterPre score b l g))) } : Row).final_status =
      x.final_status := final_status_classify x (masterPre score b l g)
  rw [this]
  exact masterPre_status score b l g x hx

/-! ## Outcomes of `classify_match_reason` on each branch -/

lemma sameAmountRows_strip (m : List Row) (r : Row) :
    sameAmountRows m { r with match_type := none, resolution_status := none, variance_amount := none, reason_code := none } = sameAmountRows m r := rfl

lemma dateDiffs_strip (m : List Row) (r : Row) :
    dateDiffs m { r with match_type := none, resolution_status := none, variance_amount := none, reason_code := none } = dateDiffs m r := rfl

lemma classify_matched (r : Row) (m : List Row) (h : r.final_status = "Matched") :
    classify_match_reason r m =
      { r with match_type := some "exact_reference", resolution_status := some "cleared",
               variance_amount := none, reason_code := none } := by
  unfold classify_match_reason
  dsimp only
  rw [if_pos (show (r.final_status == "Matched") = true by rw [h]; rfl)]

lemma classify_unmatched_timing (r : Row) (m : List Row)
    (h : r.final_status = "Unmatched")
    (ht : sameAmountRows m r ≠ [] ∧ ∃ x ∈ dateDiffs m r, DATE_TOLERANCE_DAYS < x) :
    classify_match_reason r m =
      { r with match_type := none, resolution_status := some "exception_timing",
               variance_amount := none, reason_code := some "timing_difference" } := by
  unfold classify_match_reason
  dsimp only
  rw [sameAmountRows_strip, dateDiffs_strip]
  rw [if_neg (show ¬ (r.final_status == "Matched") = true by rw [h]; decide)]
  rw [if_neg (show ¬ (r.final_status == "FuzzyMatched") = true by rw [h]; decide)]
  rw [if_pos ht]

lemma classify_unmatched_fee (r : Row) (m : List Row)
    (h : r.final_status = "Unmatched")
    (hnt : ¬ (sameAmountRows m r ≠ [] ∧ ∃ x ∈ dateDiffs m r, DATE_TOLERANCE_DAYS < x))
    (hfee : r.amount_cent ≤ SMALL_FEE_THRESHOLD_PENCE ∧
      ∃ gw ∈ KNOWN_GATEWAYS, strHasSub gw r.ref_norm = true) :
    classify_match_reason r m =
      { r with match_type := none, resolution_status := some "cleared_with_difference",
               variance_amount := some ((r.amount_cent : ℚ) / 100),
               reason_code := some "likely_processing_fee" } := by
  unfold classify_match_reason
  dsimp only
  rw [sameAmountRows_strip, dateDiffs_strip]
  rw [if_neg (show ¬ (r.final_status == "Matched") = true by rw [h]; decide)]
  rw [if_neg (show ¬ (r.final_status == "FuzzyMatched") = true by rw [h]; decide)]
  rw [if_neg hnt]
  rw [if_pos hfee]

lemma classify_unmatched_unknown (r : Row) (m : List Row)
    (h : r.final_status = "Unmatched")
    (hnt : ¬ (sameAmountRows m r ≠ [] ∧ ∃ x ∈ dateDiffs m r, DATE_TOLERANCE_DAYS < x))
    (hnf : ¬ (r.amount_cent ≤ SMALL_FEE_THRESHOLD_PENCE ∧
      ∃ gw ∈ KNOWN_GATEWAYS, strHasSub gw r.ref_norm = true)) :
    classify_match_reason r m =
      { r with match_type := none, resolution_status := some "exception_unknown",
               variance_amount := none, reason_code := some "unknown" } := by
  unfold classify_match_reason
  dsimp only
  rw [sameAmountRows_strip, dateDiffs_strip]
  rw [if_neg (show ¬ (r.final_status == "Matched") = true by rw [h]; decide)]
  rw [if_neg (show ¬ (r.final_status == "FuzzyMatched") = true by rw [h]; decide)]
  rw [if_neg hnt]
  rw [if_neg hnf]

/-! ## The timing guard as an existential over the table -/

lemma timing_guard_iff (m : List Row) (r : Row) :
    (sameAmountRows m r ≠ [] ∧ ∃ x ∈ dateDiffs m r, DATE_TOLERANCE_DAYS < x) ↔
      timingWitness m r := by
  constructor
  · rintro ⟨-, x, hx, hlt⟩
    unfold dateDiffs at hx
    obtain ⟨rr, hrr, hmx⟩ := List.mem_filterMap.mp hx
    unfold sameAmountRows at hrr
    obtain ⟨hrm, hcond⟩ := List.mem_filter.mp hrr
    simp only [Bool.and_eq_true, beq_iff_eq, bne_iff_ne] at hcond
    refine ⟨rr, hrm, hcond.1, hcond.2, ?_⟩
    cases hd : rr.date with
    | none =>
      rw [hd] at hmx
      simp at hmx
    | some d =>
      cases hd0 : r.date with
      | none =>
        rw [hd, hd0] at hmx
        simp at hmx
      | some d0 =>
        rw [hd, hd0] at hmx
        simp only [Option.some.injEq] at hmx
        simp only [dateFar, decide_eq_true_eq]
        rw [hmx]
        exact hlt
  · rintro ⟨rr, hrm, hcent, hsrc, hfar⟩
    have hmem : rr ∈ sameAmountRows m r := by
      unfold sameAmountRows
      refine List.mem_filter.mpr ⟨hrm, ?_⟩
      simp [hcent, hsrc]
    cases hd : rr.date with
    | none =>
      rw [hd] at hfar
      simp [dateFar] at hfar
    | some d =>
      cases hd0 : r.date with
      | none =>
        rw [hd, hd0] at hfar
        simp [dateFar] at hfar
      | some d0 =>
        rw [hd, hd0] at hfar
        simp only [dateFar, decide_eq_true_eq] at hfar
        refine ⟨List.ne_nil_of_mem hmem, |d - d0|, ?_, hfar⟩
        unfold dateDiffs
        refine List.mem_filterMap.mpr ⟨rr, hmem, ?_⟩
        rw [hd, hd0]

lemma timingWitness_transfer {m m2 : List Row} (h : m.map bigProj = m2.map bigProj)
    {r r2 : Row} (hcent : r.amount_cent = r2.amount_cent) (hsrc : r.source = r2.source)
    (hdate : r.date = r2.date) : timingWitness m r ↔ timingWitness m2 r2 := by
  unfold timingWitness
  constructor
  · rintro ⟨rr, hrm, h1, h2, h3⟩
    obtain ⟨x, hx, hbp⟩ := exists_of_map_eq h hrm
    obtain ⟨xs, xd, -, -, -, -, xc, -, -⟩ := bigProj_fields hbp
    refine ⟨x, hx, ?_, ?_, ?_⟩
    · rw [xc, h1, hcent]
    · rw [xs, ← hsrc]
      exact h2
    · rw [xd, ← hdate]
      exact h3
  · rintro ⟨rr, hrm, h1, h2, h3⟩
    obtain ⟨x, hx, hbp⟩ := exists_of_map_eq h.symm hrm
    obtain ⟨xs, xd, -, -, -, -, xc, -, -⟩ := bigProj_fields hbp
    refine ⟨x, hx, ?_, ?_, ?_⟩
    · rw [xc, h1, hcent]
    · rw [xs, hsrc]
      exact h2
    · rw [xd, hdate]
      exact h3

lemma sourcesPresent_transfer {m m2 : List Row} (h : m.map bigProj = m2.map bigProj)
    (k : Option String) (s : String) : sourcesPresent m k s ↔ sourcesPresent m2 k s := by
  unfold sourcesPresent
  constructor
  · rintro ⟨rr, hrm, h1, h2⟩
    obtain ⟨x, hx, hbp⟩ := exists_of_map_eq h hrm
    obtain ⟨xs, -, -, -, -, -, -, -, xk⟩ := bigProj_fields hbp
    exact ⟨x, hx, by rw [xk, h1], by rw [xs, h2]⟩
  · rintro ⟨rr, hrm, h1, h2⟩
    obtain ⟨x, hx, hbp⟩ := exists_of_map_eq h.symm hrm
    obtain ⟨xs, -, -, -, -, -, -, -, xk⟩ := bigProj_fields hbp
    exact ⟨x, hx, by rw [xk, h1], by rw [xs, h2]⟩

/-! ## Lengths -/

lemma masterAll_length (score : String → String → ℚ) (b l g : List InRow) :
    (masterAll score b l g).length = b.length + l.length + g.length := by
  simp [masterAll, masterPre, masterFuzzy, mark_fuzzy, masterStatused, masterKeyed,
    remapStatus, setNotFuzzy, markReconciled, make_match_key, prepare_dataframe,
    taggedInput, applyFuzzyGroups_length]
  omega

lemma masterAll_map_bigProj_pre (score : String → String → ℚ) (b l g : List InRow) :
    (masterAll score b l g).map bigProj = (masterPre score b l g).map bigProj := by
  unfold masterAll
  rw [map_bigProj_reason, map_bigProj_classify]

lemma length_filter_three (lst : List Row)
    (h : ∀ r ∈ lst, r.final_status = "Matched" ∨ r.final_status = "Unmatched") :
    lst.length = ((lst.filter fun r => r.final_status == "Matched").length +
      (lst.filter fun r => r.final_status == "FuzzyMatched").length) +
      (lst.filter fun r => r.final_status == "Unmatched").length := by
  induction lst with
  | nil => rfl
  | cons a t ih =>
    have ih2 := ih fun r hr => h r (List.mem_cons_of_mem a hr)
    rcases h a (List.mem_cons_self a t) with ha | ha <;>
      simp [List.filter_cons, ha, ih2] <;> omega

/-! ## Claim theorems -/

/-- C10: for every triple of input tables, every row of the result has
final status `"Matched"` or `"Unmatched"` and never `"FuzzyMatched"`
(`mark_fuzzy` never sets a `fuzzy_status` column, and line 151 only ever
writes `"NotFuzzy"`), so the third returned partition is always empty. -/
theorem C10_no_fuzzyMatched (score : String → String → ℚ) (b l g : List InRow) :
    (∀ r ∈ (apply_matching score b l g).1,
        r.final_status = "Matched" ∨ r.final_status = "Unmatched") ∧
    (apply_matching score b l g).2.2.1 = [] := by
  constructor
  · intro r hr
    exact masterAll_status score b l g r hr
  · show (masterAll score b l g).filter (fun r => r.final_status == "FuzzyMatched") = []
    rw [List.filter_eq_nil_iff]
    intro r hr
    rcases masterAll_status score b l g r hr with h | h <;> simp [h]

/-- C10 witness: the empty-partition fact evaluated on a concrete run. -/
theorem C10_witness :
    (apply_matching scoreEq exTwoBank exTwoLedger []).2.2.1 = [] ∧
    (((apply_matching scoreEq exTwoBank exTwoLedger []).1.headI).final_status = "Matched" ∨
     ((apply_matching scoreEq exTwoBank exTwoLedger []).1.headI).final_status = "Unmatched") :=
  ⟨(C10_no_fuzzyMatched scoreEq exTwoBank exTwoLedger []).2,
   (C10_no_fuzzyMatched scoreEq exTwoBank exTwoLedger []).1 _
     (headI_mem _ (by with_unfolding_all decide))⟩

/-- C8: the result table has exactly one row per input row
(`len(all) = len(bank)+len(ledger)+len(gateway)`), its length is the sum of
the three status partitions, and every row lies in exactly one of them. -/
theorem C8_partition (score : String → String → ℚ) (b l g : List InRow) :
    (apply_matching score b l g).1.length = b.length + l.length + g.length ∧
    (apply_matching score b l g).1.length =
      ((apply_matching score b l g).2.1.length +
        (apply_matching score b l g).2.2.1.length) +
        (apply_matching score b l g).2.2.2.length ∧
    ∀ r ∈ (apply_matching score b l g).1,
      (r ∈ (apply_matching score b l g).2.1 ∧ r ∉ (apply_matching score b l g).2.2.1 ∧
        r ∉ (apply_matching score b l g).2.2.2) ∨
      (r ∉ (apply_matching score b l g).2.1 ∧ r ∈ (apply_matching score b l g).2.2.1 ∧
        r ∉ (apply_matching score b l g).2.2.2) ∨
      (r ∉ (apply_matching score b l g).2.1 ∧ r ∉ (apply_matching score b l g).2.2.1 ∧
        r ∈ (apply_matching score b l g).2.2.2) := by
  refine ⟨masterAll_length score b l g,
    length_filter_three (masterAll score b l g) (masterAll_status score b l g), ?_⟩
  intro r hr
  rcases masterAll_status score b l g r hr with h | h
  · left
    refine ⟨List.mem_filter.mpr ⟨hr, by simp [h]⟩, ?_, ?_⟩ <;>
      · intro hc
        have := (List.mem_filter.mp hc).2
        simp [h] at this
  · right; right
    refine ⟨?_, ?_, List.mem_filter.mpr ⟨hr, by simp [h]⟩⟩ <;>
      · intro hc
        have := (List.mem_filter.mp hc).2
        simp [h] at this

/-- C8 witness: the bookkeeping identities on a concrete run. -/
theorem C8_witness :
    (apply_matching scoreEq exTwoBank exTwoLedger []).1.length =
      exTwoBank.length + exTwoLedger.length + ([] : List InRow).length ∧
    (apply_matching scoreEq exTwoBank exTwoLedger []).1.length =
      ((apply_matching scoreEq exTwoBank exTwoLedger []).2.1.length +
        (apply_matching scoreEq exTwoBank exTwoLedger []).2.2.1.length) +
        (apply_matching scoreEq exTwoBank exTwoLedger []).2.2.2.length :=
  ⟨(C8_partition scoreEq exTwoBank exTwoLedger []).1,
   (C8_partition scoreEq exTwoBank exTwoLedger []).2.1⟩

/-- C9: `apply_matching` is a pure function of its input tables — equal
inputs give equal outputs — and its `Matched` verdict for a row is
determined by which sources are present under the row's key (an
order-free membership condition: no hidden state and no dependence on
iteration order of the grouped keys). -/
theorem C9_deterministic (score : String → String → ℚ)
    (b1 l1 g1 b2 l2 g2 : List InRow) (hb : b1 = b2) (hl : l1 = l2) (hg : g1 = g2) :
    apply_matching score b1 l1 g1 = apply_matching score b2 l2 g2 ∧
    ∀ r ∈ (apply_matching score b1 l1 g1).1,
      (r.final_status = "Matched" ↔
        (sourcesPresent (apply_matching score b1 l1 g1).1 r.match_key "bank" ∧
         sourcesPresent (apply_matching score b1 l1 g1).1 r.match_key "ledger" ∧
         sourcesPresent (apply_matching score b1 l1 g1).1 r.match_key "gateway")) := by
  subst hb; subst hl; subst hg
  exact ⟨rfl, fun r hr => matched_iff_sources score b1 l1 g1 hr⟩

/-- C9 witness: determinism instantiated on a concrete run. -/
theorem C9_witness :
    apply_matching scoreEq exThreeFeed exThreeFeed exThreeFeed =
      apply_matching scoreEq exThreeFeed exThreeFeed exThreeFeed :=
  (C9_deterministic scoreEq exThreeFeed exThreeFeed exThreeFeed
    exThreeFeed exThreeFeed exThreeFeed rfl rfl rfl).1

/-- C2: every row whose group (rows sharing its `match_key`) has all three
sources present is classified `Matched` / `exact_reference` / `cleared`
with null variance.  (Groups are only ever formed by the exact key — the
fuzzy merge requires a null `match_key`, which never occurs — so the
`fuzzy_reference` alternative of the claim never arises.) -/
theorem C2_three_sources_matched (score : String → String → ℚ) (b l g : List InRow)
    (r : Row) (hr : r ∈ (apply_matching score b l g).1)
    (hbank : sourcesPresent (apply_matching score b l g).1 r.match_key "bank")
    (hledger : sourcesPresent (apply_matching score b l g).1 r.match_key "ledger")
    (hgateway : sourcesPresent (apply_matching score b l g).1 r.match_key "gateway") :
    r.final_status = "Matched" ∧ r.match_type = some "exact_reference" ∧
    r.resolution_status = some "cleared" ∧ r.variance_amount = none := by
  have hr2 : r ∈ masterAll score b l g := hr
  have hM : r.final_status = "Matched" :=
    (matched_iff_sources score b l g hr2).mpr ⟨hbank, hledger, hgateway⟩
  obtain ⟨x, hx, rfl⟩ := masterAll_row_form score b l g r hr2
  have hxM : x.final_status = "Matched" := by
    rw [← final_status_classify x (masterPre score b l g)]
    exact hM
  refine ⟨hM, ?_, ?_, ?_⟩ <;> rw [classify_matched x _ hxM]

/-- C2 witness: the spec's three-identical-rows scenario. -/
theorem C2_witness :
    ((apply_matching scoreEq exThreeFeed exThreeFeed exThreeFeed).1.headI).final_status =
        "Matched" ∧
    ((apply_matching scoreEq exThreeFeed exThreeFeed exThreeFeed).1.headI).match_type =
        some "exact_reference" ∧
    ((apply_matching scoreEq exThreeFeed exThreeFeed exThreeFeed).1.headI).resolution_status =
        some "cleared" ∧
    ((apply_matching scoreEq exThreeFeed exThreeFeed exThreeFeed).1.headI).variance_amount =
        none :=
  C2_three_sources_matched scoreEq exThreeFeed exThreeFeed exThreeFeed _
    (headI_mem _ (by with_unfolding_all decide)) (by with_unfolding_all decide)
    (by with_unfolding_all decide) (by with_unfolding_all decide)

/-- C1 counterexample: the spec's two-source scenario (bank 50.00 "ABC"
and ledger 50.00 "ABC", no gateway).  The group of key `"5000_abc_0"` has
exactly the two sources bank and ledger, yet no row is classified
`"Partially Matched"` with resolution `cleared`: both rows come out
`"Unmatched"` with resolution `exception_unknown`. -/
theorem C1_counterexample :
    (∃ r ∈ (apply_matching scoreEq exTwoBank exTwoLedger []).1,
        r.match_key = some "5000_abc_0" ∧ r.source = "bank") ∧
    (∃ r ∈ (apply_matching scoreEq exTwoBank exTwoLedger []).1,
        r.match_key = some "5000_abc_0" ∧ r.source = "ledger") ∧
    (∀ r ∈ (apply_matching scoreEq exTwoBank exTwoLedger []).1,
        r.match_key = some "5000_abc_0" → (r.source = "bank" ∨ r.source = "ledger")) ∧
    (∀ r ∈ (apply_matching scoreEq exTwoBank exTwoLedger []).1,
        r.final_status = "Unmatched" ∧ r.final_status ≠ "Partially Matched" ∧
        r.resolution_status = some "exception_unknown" ∧
        r.resolution_status ≠ some "cleared") := by
  with_unfolding_all decide

/-- C1 amended: a group with exactly two distinct sources is never
`"Partially Matched"` (that status does not exist in the code): its rows
keep final status `"Unmatched"` and fall through to the unmatched
heuristics, ending in `exception_timing`, `cleared_with_difference` or
`exception_unknown`. -/
theorem C1_two_sources_unmatched (score : String → String → ℚ) (b l g : List InRow)
    (r : Row) (hr : r ∈ (apply_matching score b l g).1) (s1 s2 : String) (_hne : s1 ≠ s2)
    (h1 : sourcesPresent (apply_matching score b l g).1 r.match_key s1)
    (h2 : sourcesPresent (apply_matching score b l g).1 r.match_key s2)
    (hcover : ∀ x ∈ (apply_matching score b l g).1,
      x.match_key = r.match_key → (x.source = s1 ∨ x.source = s2)) :
    r.final_status = "Unmatched" ∧
    (r.resolution_status = some "exception_timing" ∨
     r.resolution_status = some "cleared_with_difference" ∨
     r.resolution_status = some "exception_unknown") := by
  have hr2 : r ∈ masterAll score b l g := hr
  have hU : r.final_status = "Unmatched" := by
    rcases masterAll_status score b l g r hr2 with hM | hU
    · exfalso
      obtain ⟨hbank, hledger, hgateway⟩ := (matched_iff_sources score b l g hr2).mp hM
      obtain ⟨rb, hrb, hkb, hsb⟩ := hbank
      obtain ⟨rl, hrl, hkl, hsl⟩ := hledger
      obtain ⟨rg, hrg, hkg, hsg⟩ := hgateway
      have cb := hcover rb hrb hkb
      have cl := hcover rl hrl hkl
      have cg := hcover rg hrg hkg
      rw [hsb] at cb
      rw [hsl] at cl
      rw [hsg] at cg
      rcases cb with cb | cb <;> rcases cl with cl | cl <;> rcases cg with cg | cg
      · exact absurd (cb.trans cl.symm) (by decide)
      · exact absurd (cb.trans cl.symm) (by decide)
      · exact absurd (cb.trans cg.symm) (by decide)
      · exact absurd (cl.trans cg.symm) (by decide)
      · exact absurd (cl.trans cg.symm) (by decide)
      · exact absurd (cb.trans cg.symm) (by decide)
      · exact absurd (cb.trans cl.symm) (by decide)
      · exact absurd (cb.trans cl.symm) (by decide)
    · exact hU
  refine ⟨hU, ?_⟩
  obtain ⟨x, hx, rfl⟩ := masterAll_row_form score b l g r hr2
  have hxU : x.final_status = "Unmatched" := by
    rw [← final_status_classify x (masterPre score b l g)]
    exact hU
  by_cases ht : sameAmountRows (masterPre score b l g) x ≠ [] ∧
      ∃ y ∈ dateDiffs (masterPre score b l g) x, DATE_TOLERANCE_DAYS < y
  · left
    rw [classify_unmatched_timing x _ hxU ht]
  · by_cases hf : x.amount_cent ≤ SMALL_FEE_THRESHOLD_PENCE ∧
        ∃ gw ∈ KNOWN_GATEWAYS, strHasSub gw x.ref_norm = true
    · right; left
      rw [classify_unmatched_fee x _ hxU ht hf]
    · right; right
      rw [classify_unmatched_unknown x _ hxU ht hf]

/-- C1 amended, witness: the two-source scenario instantiated. -/
theorem C1_amended_witness :
    ((apply_matching scoreEq exTwoBank exTwoLedger []).1.headI).final_status = "Unmatched" ∧
    (((apply_matching scoreEq exTwoBank exTwoLedger []).1.headI).resolution_status =
        some "exception_timing" ∨
     ((apply_matching scoreEq exTwoBank exTwoLedger []).1.headI).resolution_status =
        some "cleared_with_difference" ∨
     ((apply_matching scoreEq exTwoBank exTwoLedger []).1.headI).resolution_status =
        some "exception_unknown") :=
  C1_two_sources_unmatched scoreEq exTwoBank exTwoLedger []
    ((apply_matching scoreEq exTwoBank exTwoLedger []).1.headI)
    (headI_mem _ (by with_unfolding_all decide)) "bank" "ledger" (by decide)
    (by with_unfolding_all decide) (by with_unfolding_all decide)
    (by with_unfolding_all decide)

/-- C3 counterexample: the spec's gateway-fee scenario (a lone bank row of
4.99 with reference "STRIPE FEE").  The row satisfies the small-fee
heuristic — `amount_cent = 499 ≤ 500` and `ref_norm = "stripefee"`
contains `"stripe"` — and indeed receives `cleared_with_difference` with
variance 4.99, but its status is `"Unmatched"`, not the claimed
`"Matched"`. -/
theorem C3_counterexample :
    ((apply_matching scoreEq exFeeBank [] []).1.map fun r =>
        (r.final_status, r.resolution_status, r.variance_amount, r.amount_cent, r.ref_norm)) =
      [("Unmatched", some "cleared_with_difference", some (499 / 100 : ℚ), 499, "stripefee")] ∧
    (∀ r ∈ (apply_matching scoreEq exFeeBank [] []).1, r.final_status ≠ "Matched") := by
  constructor
  · with_unfolding_all rfl
  · with_unfolding_all decide

/-- C3 amended: for an `"Unmatched"` row not caught by the timing check,
the small-fee heuristic fires when `amount_cent ≤ 500` (the code's bound
is inclusive) and `ref_norm` contains a known-gateway substring, setting
resolution `cleared_with_difference`, variance `amount_cent/100` and
reason code `likely_processing_fee` — but the final status remains
`"Unmatched"` and `match_type` stays null (never `gateway_fee`); any other
such row gets `exception_unknown`. -/
theorem C3_fee_heuristic (score : String → String → ℚ) (b l g : List InRow)
    (r : Row) (hr : r ∈ (apply_matching score b l g).1)
    (hU : r.final_status = "Unmatched")
    (hnt : ¬ timingWitness (apply_matching score b l g).1 r) :
    ((r.amount_cent ≤ SMALL_FEE_THRESHOLD_PENCE ∧
        ∃ gw ∈ KNOWN_GATEWAYS, strHasSub gw r.ref_norm = true) →
      r.resolution_status = some "cleared_with_difference" ∧
      r.variance_amount = some ((r.amount_cent : ℚ) / 100) ∧
      r.match_type = none ∧ r.reason_code = some "likely_processing_fee") ∧
    (¬ (r.amount_cent ≤ SMALL_FEE_THRESHOLD_PENCE ∧
        ∃ gw ∈ KNOWN_GATEWAYS, strHasSub gw r.ref_norm = true) →
      r.resolution_status = some "exception_unknown" ∧ r.variance_amount = none) := by
  have hr2 : r ∈ masterAll score b l g := hr
  obtain ⟨x, hx, rfl⟩ := masterAll_row_form score b l g r hr2
  have hxU : x.final_status = "Unmatched" := by
    rw [← final_status_classify x (masterPre score b l g)]
    exact hU
  have hbp : bigProj ({ classify_match_reason x (masterPre score b l g) with
      match_reason :=
        some (generate_match_reason (classify_match_reason x (masterPre score b l g))) } : Row) =
      bigProj x := bigProj_classify x (masterPre score b l g)
  obtain ⟨hsrc, hdate, -, -, -, -, hcent, hrefn, -⟩ := bigProj_fields hbp
  have hnt2 : ¬ timingWitness (masterPre score b l g) x := fun h => hnt
    ((timingWitness_transfer (masterAll_map_bigProj_pre score b l g) hcent hsrc hdate).mpr h)
  have hguard : ¬ (sameAmountRows (masterPre score b l g) x ≠ [] ∧
      ∃ y ∈ dateDiffs (masterPre score b l g) x, DATE_TOLERANCE_DAYS < y) := fun hg =>
    hnt2 ((timing_guard_iff (masterPre score b l g) x).mp hg)
  constructor
  · intro hfee
    rw [hcent, hrefn] at hfee
    refine ⟨?_, ?_, ?_, ?_⟩ <;> rw [classify_unmatched_fee x _ hxU hguard hfee]
  · intro hnf
    rw [hcent, hrefn] at hnf
    refine ⟨?_, ?_⟩ <;> rw [classify_unmatched_unknown x _ hxU hguard hnf]

/-- C3 amended, witness: the lone stripe-fee row instantiated. -/
theorem C3_witness :
    ((apply_matching scoreEq exFeeBank [] []).1.headI).resolution_status =
        some "cleared_with_difference" ∧
    ((apply_matching scoreEq exFeeBank [] []).1.headI).variance_amount =
        some ((((apply_matching scoreEq exFeeBank [] []).1.headI).amount_cent : ℚ) / 100) ∧
    ((apply_matching scoreEq exFeeBank [] []).1.headI).match_type = none ∧
    ((apply_matching scoreEq exFeeBank [] []).1.headI).reason_code =
        some "likely_processing_fee" :=
  (C3_fee_heuristic scoreEq exFeeBank [] []
      ((apply_matching scoreEq exFeeBank [] []).1.headI)
      (headI_mem _ (by with_unfolding_all decide))
      (by with_unfolding_all rfl)
      (by with_unfolding_all decide)).1
    (by with_unfolding_all decide)

/-- C4 counterexample: bank and ledger share the key `"1000_abc_0"` (a
two-source group), while a gateway row carries the same `amount_cent`
1000 dated 10 days later.  The timing refinement fires for the two-source
group's rows — `resolution = exception_timing` — refuting "this
refinement applies to single-source groups only". -/
theorem C4_counterexample :
    (∃ r ∈ (apply_matching scoreEq exTimBank exTimLedger exTimGateway).1,
        r.match_key = some "1000_abc_0" ∧ r.source = "bank") ∧
    (∃ r ∈ (apply_matching scoreEq exTimBank exTimLedger exTimGateway).1,
        r.match_key = some "1000_abc_0" ∧ r.source = "ledger") ∧
    (∀ r ∈ (apply_matching scoreEq exTimBank exTimLedger exTimGateway).1,
        r.match_key = some "1000_abc_0" → (r.source = "bank" ∨ r.source = "ledger")) ∧
    (∀ r ∈ (apply_matching scoreEq exTimBank exTimLedger exTimGateway).1,
        r.match_key = some "1000_abc_0" →
          r.resolution_status = some "exception_timing") := by
  with_unfolding_all decide

/-- C4 amended: the timing refinement applies to every row whose final
status is `"Unmatched"` — including members of two-source groups, not only
single-source groups.  If some other-source transaction has the identical
`amount_cent` and a date (both present) more than `DATE_TOLERANCE_DAYS`
away, the row's resolution is `exception_timing`. -/
theorem C4_timing_refinement (score : String → String → ℚ) (b l g : List InRow)
    (r : Row) (hr : r ∈ (apply_matching score b l g).1)
    (hU : r.final_status = "Unmatched")
    (ht : timingWitness (apply_matching score b l g).1 r) :
    r.resolution_status = some "exception_timing" ∧
    r.reason_code = some "timing_difference" := by
  have hr2 : r ∈ masterAll score b l g := hr
  obtain ⟨x, hx, rfl⟩ := masterAll_row_form score b l g r hr2
  have hxU : x.final_status = "Unmatched" := by
    rw [← final_status_classify x (masterPre score b l g)]
    exact hU
  have hbp : bigProj ({ classify_match_reason x (masterPre score b l g) with
      match_reason :=
        some (generate_match_reason (classify_match_reason x (masterPre score b l g))) } : Row) =
      bigProj x := bigProj_classify x (masterPre score b l g)
  obtain ⟨hsrc, hdate, -, -, -, -, hcent, -, -⟩ := bigProj_fields hbp
  have ht2 : timingWitness (masterPre score b l g) x :=
    (timingWitness_transfer (masterAll_map_bigProj_pre score b l g) hcent hsrc hdate).mp ht
  have hguard := (timing_guard_iff (masterPre score b l g) x).mpr ht2
  refine ⟨?_, ?_⟩ <;> rw [classify_unmatched_timing x _ hxU hguard]

/-- C4 amended, witness: the bank row of the timing scenario. -/
theorem C4_witness :
    ((apply_matching scoreEq exTimBank exTimLedger exTimGateway).1.headI).resolution_status =
        some "exception_timing" ∧
    ((apply_matching scoreEq exTimBank exTimLedger exTimGateway).1.headI).reason_code =
        some "timing_difference" :=
  C4_timing_refinement scoreEq exTimBank exTimLedger exTimGateway
    ((apply_matching scoreEq exTimBank exTimLedger exTimGateway).1.headI)
    (headI_mem _ (by with_unfolding_all decide))
    (by with_unfolding_all rfl)
    (by with_unfolding_all decide)

/-- C5 counterexample: two rows with the identical normalised reference
`"abc"` (similarity 100 ≥ FUZZY_THRESHOLD, for `scoreEq` just as for
`rapidfuzz.fuzz.ratio` on equal strings) but different dates.  They are
fuzzy-clustered together (both get `fuzzy_group = 0`), yet their
`match_key`s remain the two distinct exact keys — no shared synthetic key
is ever assigned, so they do not land in one group. -/
theorem C5_counterexample :
    FUZZY_THRESHOLD ≤ scoreEq "abc" "abc" ∧
    ((apply_matching scoreEq exFzBank exFzLedger []).1.map fun r =>
        (r.ref_norm, r.fuzzy_group, r.match_key)) =
      [("abc", some 0, some "1000_abc_0"), ("abc", some 0, some "1000_abc_5")] ∧
    ((apply_matching scoreEq exFzBank exFzLedger []).1.map fun r => r.match_key).Nodup := by
  refine ⟨by with_unfolding_all decide, by with_unfolding_all rfl, ?_⟩
  with_unfolding_all decide

/-- C5 amended: `mark_fuzzy` overwrites `match_key` only where it is null,
and `make_match_key` has already set every `match_key` to a non-null
string, so in the `apply_matching` pipeline the fuzzy pass never changes
any key: fuzzy-similar transactions with different exact keys stay in
separate groups. -/
theorem C5_fuzzy_keys_unchanged (score : String → String → ℚ) (df : List Row)
    (h : ∀ r ∈ df, r.match_key.isSome = true) :
    (mark_fuzzy score df).map (fun r => r.match_key) = df.map fun r => r.match_key := by
  unfold mark_fuzzy
  refine applyFuzzyGroups_map (fun r => r.match_key) _ df 0 fun gid r hrm => ?_
  obtain ⟨k, hk⟩ := Option.isSome_iff_exists.mp (h r hrm)
  simp [fuzzRow, hk]

/-- C5 amended, witness: a row with a set key passes `mark_fuzzy`
unchanged. -/
theorem C5_witness :
    (mark_fuzzy scoreEq [exKeyedRow]).map (fun r => r.match_key) =
      [exKeyedRow].map fun r => r.match_key :=
  C5_fuzzy_keys_unchanged scoreEq [exKeyedRow] (by decide)

/-- C6 counterexample: the bank feed alone is all-negative (its mean is
−10 < 0, so per the claim it should be tagged `debit` with absolute
amounts), but `apply_matching` computes the mean over the three
concatenated feeds (here (−10+100+100)/3 ≥ 0), so the bank rows are
tagged `credit` and keep amount −10. -/
theorem C6_counterexample :
    meanAmount (taggedInput exPolBank [] []) < 0 ∧
    ((apply_matching scoreEq exPolBank exPolLedger exPolGateway).1.map fun r =>
        (r.source, r.polarity, r.amount)) =
      [("bank", "credit", -10), ("ledger", "credit", 100), ("gateway", "credit", 100)] := by
  refine ⟨by with_unfolding_all decide, ?_⟩
  with_unfolding_all rfl

/-- C6 amended: polarity is decided once over the whole concatenated
master table, not per feed: every row's `polarity` is `"debit"` exactly
when the mean of all three feeds' amounts is negative, and `"credit"`
otherwise; when that combined mean is negative, every stored amount is
the absolute value (hence nonnegative). -/
theorem C6_global_polarity (score : String → String → ℚ) (b l g : List InRow)
    (r : Row) (hr : r ∈ (apply_matching score b l g).1) :
    r.polarity = (if meanAmount (taggedInput b l g) < 0 then "debit" else "credit") ∧
    (meanAmount (taggedInput b l g) < 0 → 0 ≤ r.amount) := by
  obtain ⟨x, hx, hbp⟩ := exists_of_map_eq (masterAll_map_bigProj score b l g) hr
  obtain ⟨-, -, ham, hpol, -, -, -, -, -⟩ := bigProj_fields hbp
  unfold masterKeyed make_match_key at hx
  obtain ⟨y, hy, rfl⟩ := List.mem_map.mp hx
  unfold prepare_dataframe at hy
  obtain ⟨p, -, rfl⟩ := List.mem_map.mp hy
  constructor
  · rw [← hpol]
  · intro hneg
    rw [← ham]
    show 0 ≤ (if meanAmount (taggedInput b l g) < 0 then |p.2.amount.getD 0|
      else p.2.amount.getD 0)
    rw [if_pos hneg]
    exact abs_nonneg _

/-- C6 amended, witness: an all-negative single feed (combined mean −3)
comes out `debit` with nonnegative amounts. -/
theorem C6_witness :
    ((apply_matching scoreEq exNegBank [] []).1.headI).polarity =
      (if meanAmount (taggedInput exNegBank [] []) < 0 then "debit" else "credit") ∧
    0 ≤ ((apply_matching scoreEq exNegBank [] []).1.headI).amount :=
  ⟨(C6_global_polarity scoreEq exNegBank [] []
      ((apply_matching scoreEq exNegBank [] []).1.headI)
      (headI_mem _ (by with_unfolding_all decide))).1,
   (C6_global_polarity scoreEq exNegBank [] []
      ((apply_matching scoreEq exNegBank [] []).1.headI)
      (headI_mem _ (by with_unfolding_all decide))).2
     (by with_unfolding_all decide)⟩

/-- C7 counterexample: a feed with amounts −1 and 100 has nonnegative
mean, so the debit branch does not fire and the −1 row keeps its negative
stored amount, refuting "the stored amount is always ≥ 0". -/
theorem C7_counterexample :
    ((apply_matching scoreEq exMixBank [] []).1.map fun r => r.amount) = [-1, 100] ∧
    ¬ (0 ≤ ((apply_matching scoreEq exMixBank [] []).1.headI).amount) := by
  refine ⟨by with_unfolding_all rfl, ?_⟩
  with_unfolding_all decide

/-- C7 amended: `amount_cent = roundHalfEven (amount_gbp * 100)` with
`amount_gbp = amount * rate(currency)` holds for every row, but the
stored `amount` is guaranteed nonnegative only when the concatenated
feeds' mean amount is negative (the branch that takes absolute values);
otherwise a negative row keeps its sign. -/
theorem C7_minor_unit_invariant (score : String → String → ℚ) (b l g : List InRow)
    (r : Row) (hr : r ∈ (apply_matching score b l g).1) :
    r.amount_cent = roundHalfEven (r.amount_gbp * 100) ∧
    r.amount_gbp = r.amount * ((FX_RATES.lookup r.currency).getD 1) ∧
    (meanAmount (taggedInput b l g) < 0 → 0 ≤ r.amount) := by
  obtain ⟨x, hx, hbp⟩ := exists_of_map_eq (masterAll_map_bigProj score b l g) hr
  obtain ⟨-, -, ham, -, hcur, hgbp, hcent, -, -⟩ := bigProj_fields hbp
  unfold masterKeyed make_match_key at hx
  obtain ⟨y, hy, rfl⟩ := List.mem_map.mp hx
  unfold prepare_dataframe at hy
  obtain ⟨p, -, rfl⟩ := List.mem_map.mp hy
  refine ⟨?_, ?_, ?_⟩
  · rw [← hcent, ← hgbp]
  · rw [← hgbp, ← ham, ← hcur]
  · intro hneg
    rw [← ham]
    show 0 ≤ (if meanAmount (taggedInput b l g) < 0 then |p.2.amount.getD 0|
      else p.2.amount.getD 0)
    rw [if_pos hneg]
    exact abs_nonneg _

/-- C7 amended, witness: the invariant and the debit-branch nonnegativity
on a concrete all-negative feed. -/
theorem C7_witness :
    ((apply_matching scoreEq exNegBank [] []).1.headI).amount_cent =
      roundHalfEven (((apply_matching scoreEq exNegBank [] []).1.headI).amount_gbp * 100) ∧
    0 ≤ ((apply_matching scoreEq exNegBank [] []).1.headI).amount :=
  ⟨(C7_minor_unit_invariant scoreEq exNegBank [] []
      ((apply_matching scoreEq exNegBank [] []).1.headI)
      (headI_mem _ (by with_unfolding_all decide))).1,
   (C7_minor_unit_invariant scoreEq exNegBank [] []
      ((apply_matching scoreEq exNegBank [] []).1.headI)
      (headI_mem _ (by with_unfolding_all decide))).2.2
     (by with_unfolding_all decide)⟩
